import Mathlib

/-!
Shallow embedding of the client-side data-cache layer of the
`nextjs-shadcn-base` repository: the optimistic-mutation coordinator
(`src/hooks/react-query/useOptimisticMutation.tsx`), the pagination hook
(`usePagination` in `src/hooks/api`), and the realtime channel binding
(`useSocket`), together with spec-modelled pieces (cache-entry revision
counter, request coalescing) whose implementation lives in the external
query-cache library rather than in this repository's sources.

JavaScript objects are passed by reference and may be mutated in place, so
the embedding of `useOptimisticMutation` uses an explicit heap (`List α`)
addressed by natural-number references: the query-client cache slot for
`queryKey` holds a reference, `getQueryData` dereferences it, and the
caller-supplied `optimisticUpdateFn` mutates the heap cell of the `state`
prop in place, exactly as the source does.
-/

set_option autoImplicit false

namespace UseOptimisticMutation

/-- Concrete payload type used for the spec's end-to-end scenario
(`entry todo:1 holds {title:"A", done:false}`). -/
structure Todo where
  title : String
  done : Bool
deriving DecidableEq, Repr

/-- State visible to one `useOptimisticMutation` run for a single `queryKey`:
a heap of JavaScript objects (addressed by `Nat` references), the
query-client cache slot for `queryKey` (holding a reference, as the real
cache holds an object reference), whether `cancelQueries` has run for the
key, and whether `invalidateQueries` has run for the key. -/
structure OMState (α : Type) where
  heap : List α
  cacheRef : Option Nat
  cancelled : Bool
  invalidated : Bool
deriving DecidableEq, Repr

variable {α : Type}

/-- Embeds `queryClient.getQueryData(queryKey)`: dereference the cache slot. -/
def getQueryData (s : OMState α) : Option α :=
  s.cacheRef.bind fun r => s.heap[r]?

/-- Embeds `await queryClient.cancelQueries({ queryKey })`. -/
def cancelQueries (s : OMState α) : OMState α :=
  { s with cancelled := true }

/-- Embeds the call `optimisticUpdateFn(state, variables)`: the caller's
function mutates the `state` object in place, i.e. it rewrites the heap
cell that `stateRef` points to; `f` is the resulting value transformation
(already specialised to `variables`). -/
def applyInPlace (f : α → α) (stateRef : Nat) (s : OMState α) : OMState α :=
  match s.heap[stateRef]? with
  | some v => { s with heap := s.heap.set stateRef (f v) }
  | none => s

/-- Embeds the `onMutate` callback of `useOptimisticMutation`
(`useOptimisticMutation.tsx` lines 86–98): await `cancelQueries`, snapshot
`previousState := getQueryData(queryKey)` (an object reference), run
`optimisticUpdateFn(state, variables)` in place, and return the context
`{ previousState }`. -/
def onMutate (f : α → α) (stateRef : Nat) (s : OMState α) :
    OMState α × Option Nat :=
  let s1 := cancelQueries s
  let previousState := s1.cacheRef
  let s2 := applyInPlace f stateRef s1
  (s2, previousState)

/-- Embeds the `onError` callback (lines 99–105):
`queryClient.setQueryData(queryKey, context?.previousState)`. Passing an
`undefined` value to `setQueryData` performs no update, so an absent
snapshot leaves the cache slot unchanged. -/
def onErrorHandler (ctxPrev : Option Nat) (s : OMState α) : OMState α :=
  match ctxPrev with
  | none => s
  | some r => { s with cacheRef := some r }

/-- Embeds the `onSettled` callback (lines 106–111):
`if (shouldRefetchQuery) queryClient.invalidateQueries({ queryKey })`.
The query library runs `onSettled` after both success and error. -/
def onSettledHandler (shouldRefetchQuery : Bool) (s : OMState α) : OMState α :=
  if shouldRefetchQuery then { s with invalidated := true } else s

/-- One full `mutate(variables)` run whose remote `mutationFn` rejects:
`onMutate`, then the rejection, then `onError` (rollback), then
`onSettled`. -/
def mutateFailure (f : α → α) (stateRef : Nat) (shouldRefetchQuery : Bool)
    (s : OMState α) : OMState α :=
  let p := onMutate f stateRef s
  onSettledHandler shouldRefetchQuery (onErrorHandler p.2 p.1)

/-- One full `mutate(variables)` run whose remote `mutationFn` resolves:
`onMutate`, then `onSuccess` (only the caller's callback, no cache write),
then `onSettled`. -/
def mutateSuccess (f : α → α) (stateRef : Nat) (shouldRefetchQuery : Bool)
    (s : OMState α) : OMState α :=
  let p := onMutate f stateRef s
  onSettledHandler shouldRefetchQuery p.1

/-- Events emitted during one `mutate` run, used to state ordering
properties of the protocol. -/
inductive MutationEvent where
  | cancelQueriesCall
  | snapshotTaken
  | optimisticApply
  | mutationFnStart
  | mutationFnSettled
  | rollbackSet
  | errorCallback
  | successCallback
  | invalidateCall
deriving DecidableEq, BEq, Repr

/-- Instrumented `onMutate`: same state transition as `onMutate`, plus the
ordered list of events it performs. -/
def onMutateT (f : α → α) (stateRef : Nat) (s : OMState α) :
    (OMState α × Option Nat) × List MutationEvent :=
  let s1 := cancelQueries s
  let previousState := s1.cacheRef
  let s2 := applyInPlace f stateRef s1
  ((s2, previousState),
   [.cancelQueriesCall, .snapshotTaken, .optimisticApply])

/-- Instrumented full `mutate` run (failing iff `fails`): the final state
together with the ordered event trace. The query library awaits `onMutate`
before invoking `mutationFn`, runs `onError` on rejection and `onSuccess`
on resolution, and runs `onSettled` last in both cases. -/
def mutateRunT (fails shouldRefetchQuery : Bool) (f : α → α) (stateRef : Nat)
    (s : OMState α) : OMState α × List MutationEvent :=
  let q := onMutateT f stateRef s
  let tail := if shouldRefetchQuery then [MutationEvent.invalidateCall] else []
  if fails then
    (onSettledHandler shouldRefetchQuery (onErrorHandler q.1.2 q.1.1),
     q.2 ++ [.mutationFnStart, .mutationFnSettled, .rollbackSet,
             .errorCallback] ++ tail)
  else
    (onSettledHandler shouldRefetchQuery q.1.1,
     q.2 ++ [.mutationFnStart, .mutationFnSettled, .successCallback] ++ tail)

/-- The spec's scenario value: `{title:"A", done:false}`. -/
def todoBefore : Todo := { title := "A", done := false }

/-- The optimistic update of the spec's scenario: set `done := true`. -/
def setDone : Todo → Todo := fun t => { t with done := true }

/-- Typical hook usage: the `state` prop is the object obtained from the
query cache, so the cache slot and the `state` reference alias the same
heap cell (reference 0). -/
def aliasedStart : OMState Todo :=
  { heap := [todoBefore], cacheRef := some 0, cancelled := false,
    invalidated := false }

/-- Usage in which the `state` prop (reference 1) is a different object
from the one stored in the cache slot (reference 0). -/
def separateStart : OMState Todo :=
  { heap := [todoBefore, todoBefore], cacheRef := some 0, cancelled := false,
    invalidated := false }

end UseOptimisticMutation

namespace UsePagination

/-- Paging metadata reported by a fetch, shape
`{totalItems, totalPages, hasNextPage, hasPreviousPage}` (the
`IResponseData` contract of `~/types/api/general`). The boolean fields are
nullable in the transport contract, so they are embedded as `Option Bool`
with `none` playing the role of `null`. -/
structure Paging where
  totalItems : Nat
  totalPages : Nat
  hasNextPage : Option Bool
  hasPreviousPage : Option Bool
deriving DecidableEq, Repr

/-- Response of the fetch function: `{data, paging?}`. -/
structure IResponseData (α : Type) where
  data : α
  paging : Option Paging
deriving DecidableEq, Repr

/-- Local state of `usePagination`: the two `useState` cells
`pageIndex` and `pageSize`. `pageIndex` is an `Int` because nothing in the
source prevents storing a negative index. -/
structure PaginationState where
  pageIndex : Int
  pageSize : Nat
deriving DecidableEq, Repr

/-- Initial hook state: `useState(initialPageSize || 10)` (JavaScript `||`
also maps `0` to `10`) and `useState(0)` for the page index. -/
def initialPagination (initialPageSize : Option Nat) : PaginationState :=
  { pageIndex := 0,
    pageSize :=
      match initialPageSize with
      | some n => if n = 0 then 10 else n
      | none => 10 }

/-- Embeds `setPageIndex`: the hook returns React's raw state setter, so
the argument is stored unconditionally. -/
def setPageIndex (i : Int) (s : PaginationState) : PaginationState :=
  { s with pageIndex := i }

/-- Embeds `setPageSize`: again the raw state setter. -/
def setPageSize (n : Nat) (s : PaginationState) : PaginationState :=
  { s with pageSize := n }

/-- Embeds `enabled: pageIndex > -1 && enabled` in the query options: the
query (and hence any fetch) is active only when this is `true`. -/
def queryEnabled (s : PaginationState) (enabled : Bool) : Bool :=
  decide (s.pageIndex > -1) && enabled

variable {α : Type}

/-- Embeds the returned `total: data?.paging?.totalItems`. -/
def total (d : Option (IResponseData α)) : Option Nat :=
  d.bind fun r => r.paging.map Paging.totalItems

/-- Embeds the returned `hasNextPage: data?.paging?.hasNextPage !== null`.
An absent `data` or `paging` yields `undefined`, and `undefined !== null`
is `true`; a present boolean `b` yields `b !== null`, which is `true`
whether `b` is `true` or `false`; only a literal `null` yields `false`. -/
def hasNextPage (d : Option (IResponseData α)) : Bool :=
  match d with
  | none => true
  | some r =>
    match r.paging with
    | none => true
    | some p => p.hasNextPage.isSome

/-- Embeds the returned
`hasPreviousPage: data?.paging?.hasPreviousPage !== null || false`;
`x !== null` is already a boolean, so `|| false` is the identity. -/
def hasPreviousPage (d : Option (IResponseData α)) : Bool :=
  match d with
  | none => true
  | some r =>
    match r.paging with
    | none => true
    | some p => p.hasPreviousPage.isSome

/-- Embeds the returned `totalPages: data?.paging?.totalPages || 0`
(on a number, `|| 0` maps `0` to `0` and is the identity otherwise). -/
def totalPages (d : Option (IResponseData α)) : Nat :=
  match d with
  | none => 0
  | some r =>
    match r.paging with
    | none => 0
    | some p => p.totalPages

/-- The last page of the spec's scenario (25 items, pageSize 10,
pageIndex 2): the server reports `hasNextPage = false`. -/
def lastPageResp : IResponseData (List Nat) :=
  { data := [],
    paging := some { totalItems := 25, totalPages := 3,
                     hasNextPage := some false,
                     hasPreviousPage := some true } }

end UsePagination

namespace UseSocket

/-- State of the underlying socket.io client: its connection flag, the
listener registry (socket.io's emitter appends on `on`, and `off(event)`
called without a handler removes every listener of that event), and the
log of emitted events. -/
structure Socket (Event Handler Payload : Type) where
  connected : Bool
  listeners : List (Event × Handler)
  emitted : List (Event × Payload)
deriving DecidableEq, Repr

/-- State of the `useSocket` hook: `socketRef.current` (possibly `null`),
the `isConnected` state cell, and the `eventData` state cell (which no code
path of the hook ever writes). -/
structure SocketHook (Event Handler Payload : Type) where
  socket : Option (Socket Event Handler Payload)
  isConnected : Bool
  eventData : List (Event × Payload)
deriving DecidableEq, Repr

variable {Event Handler Payload : Type}

/-- Embeds `emit`: `if (socketRef.current) socketRef.current.emit(...)`. -/
def emit (e : Event) (p : Payload) (s : SocketHook Event Handler Payload) :
    SocketHook Event Handler Payload :=
  match s.socket with
  | none => s
  | some sock => { s with socket := some { sock with emitted := sock.emitted ++ [(e, p)] } }

/-- Embeds `on` (the name `on` itself is reserved in Lean):
`if (socketRef.current) socketRef.current.on(event, callback)`;
socket.io appends the callback to the event's listener list. -/
def onEvent (e : Event) (h : Handler) (s : SocketHook Event Handler Payload) :
    SocketHook Event Handler Payload :=
  match s.socket with
  | none => s
  | some sock => { s with socket := some { sock with listeners := sock.listeners ++ [(e, h)] } }

/-- Embeds `off`: `if (socketRef.current) socketRef.current.off(event)`;
socket.io's `off` with no handler argument removes all listeners
registered for that event name. -/
def off [DecidableEq Event] (e : Event) (s : SocketHook Event Handler Payload) :
    SocketHook Event Handler Payload :=
  match s.socket with
  | none => s
  | some sock =>
    { s with socket := some { sock with listeners := sock.listeners.filter fun q => decide (q.1 ≠ e) } }

/-- Embeds `reconnect`: `if (socketRef.current) socketRef.current.connect()`. -/
def reconnect (s : SocketHook Event Handler Payload) :
    SocketHook Event Handler Payload :=
  match s.socket with
  | none => s
  | some sock => { s with socket := some { sock with connected := true } }

/-- The handlers currently registered for event `e`, in registration
order. -/
def listenersFor [DecidableEq Event] (e : Event)
    (s : SocketHook Event Handler Payload) : List Handler :=
  match s.socket with
  | none => []
  | some sock => (sock.listeners.filter fun q => decide (q.1 = e)).map Prod.snd

/-- A hook whose socket exists and has no listeners yet; handlers are
identified by numbers. -/
def connectedHook : SocketHook String Nat Nat :=
  { socket := some { connected := true, listeners := [], emitted := [] },
    isConnected := true, eventData := [] }

/-- A hook whose `socketRef.current` is still `null`. -/
def nullHook : SocketHook String Nat Nat :=
  { socket := none, isConnected := false, eventData := [] }

end UseSocket

namespace CacheStore

/-- Fetch status of a cache entry (`idle | fetching | success | error`). -/
inductive FetchStatus where
  | idle
  | fetching
  | success
  | error
deriving DecidableEq, Repr

/-- Modelled from the spec: the Cache Store entry (spec §3 and §4.1). The
store itself lives in the external query-cache library, not in this
repository's sources; only its clients (`useOptimisticMutation`,
`usePagination`) are in `src/`. An entry holds the current value, a
monotonic revision counter, a staleness flag and a fetch status. -/
structure Entry (α : Type) where
  value : Option α
  revision : Nat
  stale : Bool
  status : FetchStatus
deriving DecidableEq, Repr

/-- Modelled from the spec: the accepted writes on one cache entry —
`set`, `markStale`, `invalidate`, optimistic apply, server confirmation,
realtime push, and rollback (spec §3, §4.1, §8). -/
inductive CacheWrite (α : Type) where
  | set (v : α)
  | markStale
  | invalidate
  | optimisticApply (v : α)
  | serverConfirm (v : α)
  | realtimePush (v : α)
  | rollback (snapshot : Option α)
deriving DecidableEq, Repr

variable {α : Type}

/-- Modelled from the spec: applying one accepted write to an entry.
`set` replaces the value, increments the revision and clears staleness
(§4.1); `markStale` and `invalidate` flag the entry stale without
discarding its value; every accepted write — optimistic apply, server
confirmation, realtime push — increments the revision, and a rollback
restores an older value under a new, higher revision (§3). -/
def applyWrite (e : Entry α) (w : CacheWrite α) : Entry α :=
  match w with
  | .set v =>
    { e with value := some v, revision := e.revision + 1, stale := false }
  | .markStale => { e with stale := true, revision := e.revision + 1 }
  | .invalidate => { e with stale := true, revision := e.revision + 1 }
  | .optimisticApply v =>
    { e with value := some v, revision := e.revision + 1 }
  | .serverConfirm v =>
    { e with value := some v, revision := e.revision + 1, stale := false }
  | .realtimePush v =>
    { e with value := some v, revision := e.revision + 1 }
  | .rollback snapshot =>
    { e with value := snapshot, revision := e.revision + 1 }

/-- A finite sequence of accepted writes applied in order. -/
def applyWrites (e : Entry α) (ws : List (CacheWrite α)) : Entry α :=
  ws.foldl applyWrite e

/-- An entry holding value `0` at revision `0`, used as a concrete start
state. -/
def e0 : Entry Nat :=
  { value := some 0, revision := 0, stale := false, status := .idle }

/-- A concrete write sequence: an optimistic apply followed by a rollback
to the original value. -/
def ws0 : List (CacheWrite Nat) :=
  [.optimisticApply 1, .rollback (some 0)]

end CacheStore

namespace QueryEngine

/-- Modelled from the spec: the state of the Query Execution Engine for
fetch deduplication (spec §4.2). The engine lives in the external
query-cache library; `usePagination` only configures it. `inFlight`
associates each (key, window) pair that has a fetch in flight with the
shared pending-result handle given to every caller; `fetchCount` counts
underlying fetch invocations; `nextHandle` supplies fresh handles. -/
structure EngineState (κ : Type) where
  inFlight : List (κ × Nat)
  fetchCount : Nat
  nextHandle : Nat
deriving DecidableEq, Repr

variable {κ : Type} [DecidableEq κ]

/-- Modelled from the spec: one `query(key, window)` call. If an identical
(key, window) fetch is already in flight, the caller receives the same
pending handle and no new fetch is issued; otherwise one underlying fetch
is invoked and recorded as in flight (spec §4.2, request coalescing). -/
def queryCall (kw : κ) (s : EngineState κ) : EngineState κ × Nat :=
  match s.inFlight.find? (fun q => decide (q.1 = kw)) with
  | some q => (s, q.2)
  | none =>
    ({ inFlight := (kw, s.nextHandle) :: s.inFlight,
       fetchCount := s.fetchCount + 1,
       nextHandle := s.nextHandle + 1 }, s.nextHandle)

/-- A burst of `n` consecutive `query(key, window)` calls for the same
pair, all issued before the fetch resolves; returns the final engine state
and the handles delivered to the callers in order. -/
def queryCalls (kw : κ) (n : Nat) (s : EngineState κ) :
    EngineState κ × List Nat :=
  match n with
  | 0 => (s, [])
  | n + 1 =>
    let p := queryCall kw s
    let q := queryCalls kw n p.1
    (q.1, p.2 :: q.2)

/-- An engine with nothing in flight yet. -/
def engine0 : EngineState Nat :=
  { inFlight := [], fetchCount := 0, nextHandle := 0 }

end QueryEngine

namespace CacheStore

theorem applyWrite_revision {α : Type} (e : Entry α) (w : CacheWrite α) :
    (applyWrite e w).revision = e.revision + 1 := by
  cases w <;> rfl

theorem applyWrites_revision {α : Type} (e : Entry α)
    (ws : List (CacheWrite α)) :
    (applyWrites e ws).revision = e.revision + ws.length := by
  induction ws generalizing e with
  | nil => rfl
  | cons w ws ih =>
    simp only [applyWrites, List.foldl_cons, List.length_cons] at *
    rw [ih, applyWrite_revision]
    omega

end CacheStore

namespace QueryEngine

theorem queryCall_inFlight {κ : Type} [DecidableEq κ] (kw : κ)
    (s : EngineState κ) (q : κ × Nat)
    (h : s.inFlight.find? (fun r => decide (r.1 = kw)) = some q) :
    queryCall kw s = (s, q.2) := by
  simp [queryCall, h]

theorem queryCalls_inFlight {κ : Type} [DecidableEq κ] (kw : κ) (n : Nat)
    (s : EngineState κ) (hd : Nat)
    (h : s.inFlight.find? (fun r => decide (r.1 = kw)) = some (kw, hd)) :
    queryCalls kw n s = (s, List.replicate n hd) := by
  induction n with
  | zero => rfl
  | succ n ih =>
    simp [queryCalls, queryCall_inFlight kw s (kw, hd) h, ih,
      List.replicate_succ]

end QueryEngine

namespace UseOptimisticMutation

/-- C1: the claim states that after a failed mutation the cached value
equals the value `getQueryData(queryKey)` returned immediately before
`mutate`, even though `optimisticUpdateFn` mutates its first argument in
place. Evaluating the embedded code at the typical input where the
`state` prop is the very object held in the cache (the spec's `todo:1`
scenario) shows the opposite: the in-place mutation also rewrites the
object the snapshot reference points to, so after the rollback the cache
holds `{title:"A", done:true}`, not the pre-mutation
`{title:"A", done:false}`. -/
theorem C1_rollback_corrupted_by_aliased_snapshot :
    getQueryData aliasedStart = some todoBefore ∧
    getQueryData (mutateFailure setDone 0 true aliasedStart) =
      some { title := "A", done := true } ∧
    getQueryData (mutateFailure setDone 0 true aliasedStart) ≠
      getQueryData aliasedStart := by
  decide

/-- C2 counterexample: when the caller's `state` prop is an object
distinct from the one stored in the cache slot, `onMutate` mutates only
the `state` object and never writes the cache, so a read performed
immediately after `mutate` still observes the pre-mutation value — the
claim that every `mutate` call makes the optimistic value visible under
`queryKey` is false at this concrete input. -/
theorem C2_counterexample_nonaliased_state :
    getQueryData ((onMutate setDone 1 separateStart).1) = some todoBefore ∧
    todoBefore ≠ setDone todoBefore := by
  decide

/-- C2 (amended): when the `state` prop aliases the object stored under
`queryKey` (reference `r` with current value `v`), the optimistic update
applied in place during `onMutate` is synchronously visible: a
`getQueryData` read immediately after `onMutate`, before the remote
`mutationFn` settles, returns `f v`. -/
theorem C2_optimistic_visible_when_aliased {α : Type} (f : α → α) (r : Nat)
    (s : OMState α) (v : α) (hcache : s.cacheRef = some r)
    (hv : s.heap[r]? = some v) :
    getQueryData (onMutate f r s).1 = some (f v) := by
  obtain ⟨hlt, hv2⟩ := List.getElem?_eq_some.mp hv
  simp [onMutate, cancelQueries, applyInPlace, getQueryData, hcache, hv,
    List.getElem?_set_self', hlt, hv2]

/-- Witness for C2 (amended) at the spec's `todo:1` scenario. -/
theorem C2_optimistic_visible_when_aliased_witness :
    getQueryData (onMutate setDone 0 aliasedStart).1 =
      some (setDone todoBefore) :=
  C2_optimistic_visible_when_aliased setDone 0 aliasedStart todoBefore rfl rfl

/-- C3 counterexample: with the default `shouldRefetchQuery = true`, a
failed mutation does invalidate `queryKey` after the rollback — `onSettled`
runs after errors as well, and it calls `invalidateQueries` whenever
`shouldRefetchQuery` holds. The claim that refetch-on-settle happens only
for successful mutations is false at this concrete input. -/
theorem C3_counterexample_invalidate_after_failure :
    aliasedStart.invalidated = false ∧
    (mutateFailure setDone 0 true aliasedStart).invalidated = true := by
  decide

/-- C3 (amended): `invalidateQueries` runs on settle for both outcomes —
a failed mutation with `shouldRefetchQuery = true` invalidates `queryKey`
right after the rollback, exactly as a successful one does, and with
`shouldRefetchQuery = false` neither outcome invalidates. -/
theorem C3_invalidate_on_settle_both_outcomes {α : Type} (f : α → α)
    (r : Nat) (s : OMState α) :
    (mutateFailure f r true s).invalidated = true ∧
    (mutateSuccess f r true s).invalidated = true ∧
    (mutateFailure f r false s).invalidated = s.invalidated ∧
    (mutateSuccess f r false s).invalidated = s.invalidated := by
  have happly : ∀ t : OMState α, (applyInPlace f r t).invalidated =
      t.invalidated := by
    intro t
    unfold applyInPlace
    cases hh : t.heap[r]? <;> simp [hh]
  have herr : ∀ (c : Option Nat) (t : OMState α),
      (onErrorHandler c t).invalidated = t.invalidated := by
    intro c t
    cases c <;> rfl
  refine ⟨?_, ?_, ?_, ?_⟩ <;>
    simp [mutateFailure, mutateSuccess, onMutate, onSettledHandler, herr,
      happly, cancelQueries]

/-- C9: protocol ordering inside one embedded `mutate` run — in the event
trace, `cancelQueries` (awaited in `onMutate`) occurs strictly before the
optimistic apply, and the optimistic apply occurs strictly before the
remote `mutationFn` starts, for every outcome and every
`shouldRefetchQuery` setting. -/
theorem C9_cancel_before_apply_before_mutationFn {α : Type}
    (fails shouldRefetchQuery : Bool) (f : α → α) (r : Nat) (s : OMState α) :
    ((mutateRunT fails shouldRefetchQuery f r s).2.indexOf
        MutationEvent.cancelQueriesCall <
      (mutateRunT fails shouldRefetchQuery f r s).2.indexOf
        MutationEvent.optimisticApply) ∧
    ((mutateRunT fails shouldRefetchQuery f r s).2.indexOf
        MutationEvent.optimisticApply <
      (mutateRunT fails shouldRefetchQuery f r s).2.indexOf
        MutationEvent.mutationFnStart) := by
  cases fails <;> cases shouldRefetchQuery <;>
    simp [mutateRunT, onMutateT] <;> decide

end UseOptimisticMutation

namespace UsePagination

/-- C4 counterexample: `setPageIndex` is React's raw state setter, so
`setPageIndex(1)` followed by `setPageIndex(-1)` stores `-1`; the claim
that the stored `pageIndex` is still `1` after the second call is false. -/
theorem C4_counterexample_negative_index_is_stored :
    (setPageIndex (-1) (setPageIndex 1 (initialPagination none))).pageIndex
        = -1 ∧
    (setPageIndex (-1) (setPageIndex 1 (initialPagination none))).pageIndex
        ≠ 1 := by
  decide

/-- C4 (amended): `setPageIndex i` always stores `i`, including negative
indices — the stored window does change — but for `i < 0` the query's
`enabled` condition (`pageIndex > -1 && enabled`) is false, so no fetch is
issued for the invalid window. -/
theorem C4_negative_index_stored_but_fetch_disabled (s : PaginationState)
    (i : Int) (enabled : Bool) :
    (setPageIndex i s).pageIndex = i ∧
    (i < 0 → queryEnabled (setPageIndex i s) enabled = false) := by
  refine ⟨rfl, fun hi => ?_⟩
  simp only [queryEnabled, setPageIndex, Bool.and_eq_false_iff,
    decide_eq_false_iff_not]
  left
  omega

/-- Witness for C4 (amended) at `i = -1` from the initial state. -/
theorem C4_negative_index_stored_but_fetch_disabled_witness :
    (setPageIndex (-1) (initialPagination none)).pageIndex = -1 ∧
    queryEnabled (setPageIndex (-1) (initialPagination none)) true = false :=
  ⟨(C4_negative_index_stored_but_fetch_disabled (initialPagination none)
      (-1) true).1,
   (C4_negative_index_stored_but_fetch_disabled (initialPagination none)
      (-1) true).2 (by decide)⟩

/-- C5: the claim states that the hook's `hasNextPage` equals the value
reported in the fetch's paging metadata. Evaluating the embedded code at
the spec's own scenario (25 items, pageSize 10) on the last page, where
the metadata reports `hasNextPage = false`, shows the hook reports
`hasNextPage = true` instead (it computes `hasNextPage !== null`), while
`total` and `totalPages` do follow the metadata. -/
theorem C5_hasNextPage_ignores_reported_false :
    lastPageResp.paging =
      some { totalItems := 25, totalPages := 3, hasNextPage := some false,
             hasPreviousPage := some true } ∧
    hasNextPage (some lastPageResp) = true ∧
    total (some lastPageResp) = some 25 ∧
    totalPages (some lastPageResp) = 3 := by
  decide

end UsePagination

namespace UseSocket

/-- C6 counterexample: after `on(e, h1); on(e, h2); off(e)` the handler
`h1` is no longer registered — `off(event)` with no handler argument
removes every listener of the event, not only the most recent one, so the
claim is false at this concrete input. -/
theorem C6_counterexample_off_removes_all :
    listenersFor "e" (off "e" (onEvent "e" 2 (onEvent "e" 1 connectedHook)))
        = [] ∧
    ¬ 1 ∈ listenersFor "e"
        (off "e" (onEvent "e" 2 (onEvent "e" 1 connectedHook))) := by
  decide

/-- C6 (amended): while the socket exists, each `on(event, handler)` call
appends exactly one handler registration for that event, and `off(event)`
removes all registrations for that event name (so after
`on(e,h1); on(e,h2); off(e)` no handler at all remains for `e`). -/
theorem C6_on_appends_off_clears {Event Handler Payload : Type}
    [DecidableEq Event] (s : SocketHook Event Handler Payload)
    (sock : Socket Event Handler Payload) (hs : s.socket = some sock)
    (e : Event) (h : Handler) :
    listenersFor e (onEvent e h s) = listenersFor e s ++ [h] ∧
    listenersFor e (off e s) = [] := by
  obtain ⟨so, ic, ed⟩ := s
  cases hs
  constructor
  · simp [onEvent, listenersFor, List.filter_append]
  · simp only [off, listenersFor, List.filter_filter]
    rw [List.filter_eq_nil_iff.mpr]
    · rfl
    · intro a _
      simp

/-- Witness for C6 (amended) on a fresh connected socket. -/
theorem C6_on_appends_off_clears_witness :
    listenersFor "e" (onEvent "e" 5 connectedHook) =
        listenersFor "e" connectedHook ++ [5] ∧
    listenersFor "e" (off "e" connectedHook) = [] :=
  C6_on_appends_off_clears connectedHook
    { connected := true, listeners := [], emitted := [] } rfl "e" 5

/-- C10: while `socketRef.current` is `null`, each of `emit`, `on`, `off`
and `reconnect` is a total no-op: the guard `if (socketRef.current)` fails
and the whole hook state (socket, `isConnected`, `eventData`, registered
handlers) is left unchanged. -/
theorem C10_null_socket_noop {Event Handler Payload : Type}
    [DecidableEq Event] (s : SocketHook Event Handler Payload)
    (hs : s.socket = none) (e : Event) (h : Handler) (p : Payload) :
    emit e p s = s ∧ onEvent e h s = s ∧ off e s = s ∧ reconnect s = s := by
  obtain ⟨so, ic, ed⟩ := s
  cases hs
  exact ⟨rfl, rfl, rfl, rfl⟩

/-- Witness for C10 on the concrete null-socket hook state. -/
theorem C10_null_socket_noop_witness :
    emit "x" 0 nullHook = nullHook ∧ onEvent "x" 1 nullHook = nullHook ∧
    off "x" nullHook = nullHook ∧ reconnect nullHook = nullHook :=
  C10_null_socket_noop nullHook rfl "x" 1 0

end UseSocket

namespace CacheStore

/-- C7: over every finite sequence of accepted writes (set, markStale,
invalidate, optimistic apply, server confirmation, realtime push,
rollback), the entry's revision counter is strictly increasing — the
revision after any longer prefix strictly exceeds the one after any
shorter prefix — and a rollback yields a new, higher revision whose
content is the restored snapshot rather than decrementing the counter. -/
theorem C7_revision_strictly_increasing {α : Type} (e : Entry α)
    (ws : List (CacheWrite α)) (i j : Nat) (snap : Option α) (hij : i < j)
    (hj : j ≤ ws.length) :
    (applyWrites e (ws.take i)).revision <
      (applyWrites e (ws.take j)).revision ∧
    (applyWrite e (CacheWrite.rollback snap)).revision = e.revision + 1 ∧
    (applyWrite e (CacheWrite.rollback snap)).value = snap := by
  refine ⟨?_, rfl, rfl⟩
  rw [applyWrites_revision, applyWrites_revision, List.length_take,
    List.length_take]
  omega

/-- Witness for C7 on a concrete optimistic-apply-then-rollback
sequence. -/
theorem C7_revision_strictly_increasing_witness :
    (applyWrites e0 (ws0.take 0)).revision <
      (applyWrites e0 (ws0.take 2)).revision ∧
    (applyWrite e0 (CacheWrite.rollback (some 0))).revision =
      e0.revision + 1 ∧
    (applyWrite e0 (CacheWrite.rollback (some 0))).value = some 0 :=
  C7_revision_strictly_increasing e0 ws0 0 2 (some 0) (by decide) (by decide)

end CacheStore

namespace QueryEngine

/-- C8: request coalescing — starting from a state with no fetch in
flight for the pair `kw`, a burst of `n + 1` `query` calls for `kw`
issued before the first resolves performs exactly one underlying fetch
invocation, and every caller receives the same pending-result handle. -/
theorem C8_concurrent_queries_coalesce {κ : Type} [DecidableEq κ] (kw : κ)
    (n : Nat) (s : EngineState κ)
    (h : s.inFlight.find? (fun r => decide (r.1 = kw)) = none) :
    (queryCalls kw (n + 1) s).1.fetchCount = s.fetchCount + 1 ∧
    (queryCalls kw (n + 1) s).2 = List.replicate (n + 1) s.nextHandle := by
  have h1 : queryCall kw s =
      ({ inFlight := (kw, s.nextHandle) :: s.inFlight,
         fetchCount := s.fetchCount + 1,
         nextHandle := s.nextHandle + 1 }, s.nextHandle) := by
    simp [queryCall, h]
  have h2 : (EngineState.mk ((kw, s.nextHandle) :: s.inFlight)
        (s.fetchCount + 1) (s.nextHandle + 1)).inFlight.find?
        (fun r => decide (r.1 = kw)) = some (kw, s.nextHandle) := by
    simp [List.find?]
  constructor <;>
    simp [queryCalls, h1, queryCalls_inFlight kw n _ s.nextHandle h2,
      List.replicate_succ]

/-- Witness for C8: three concurrent calls for key 7 on a fresh engine
cause one fetch and share one handle. -/
theorem C8_concurrent_queries_coalesce_witness :
    (queryCalls 7 3 engine0).1.fetchCount = engine0.fetchCount + 1 ∧
    (queryCalls 7 3 engine0).2 = List.replicate 3 engine0.nextHandle :=
  C8_concurrent_queries_coalesce 7 2 engine0 rfl

end QueryEngine

